import Mathlib

/-!
Verification of the drone georeferencing pipeline.

Shallow embedding of the Python sources:
  src/core/georeference_images.py    (geometric projector + main engine loop)
  src/pipeline/analysis_report.py    (geometric verifier)
  src/pipeline/kalman_smoother.py    (trajectory smoother)
Floating point arithmetic is modelled over the reals.
-/

open Real Matrix

namespace DroneTask

/-! ## Shared numeric helpers (math.radians / np.radians, np.clip, np.linspace,
    Python float `%`) -/

/-- Degrees to radians, as `np.radians` / `math.radians`. -/
noncomputable def radians (d : ℝ) : ℝ := d * π / 180

/-- Scalar `np.clip(v, lo, hi)` (lo ≤ hi in all uses here). -/
noncomputable def clip (v lo hi : ℝ) : ℝ := min (max v lo) hi

/-- The value `np.linspace(a, b, n)[i]`: for `n ≥ 2` the grid is
    `a + (b - a) * i / (n - 1)`; for `n ≤ 1` the single sample is `a`. -/
noncomputable def linspace (a b : ℝ) (n i : ℕ) : ℝ :=
  if n ≤ 1 then a else a + (b - a) * i / ((n : ℝ) - 1)

/-- Python float `x % 360` for the yaw normalisation (divisor positive). -/
noncomputable def mod360 (x : ℝ) : ℝ := x - 360 * ⌊x / 360⌋

/-! ## Geometric projector — src/core/georeference_images.py -/

/-- Aspect ratio chosen in `calculate_fov_angles`: the forced value when given,
    else `w / h`. -/
noncomputable def aspectOf (w h : ℕ) (force_aspect : Option ℝ) : ℝ :=
  match force_aspect with
  | some a => a
  | none => (w : ℝ) / (h : ℝ)

/-- Vertical field of view `v_fov_deg = h_fov_deg / aspect` from `calculate_fov_angles`. -/
noncomputable def v_fov_deg (w h : ℕ) (h_fov_deg : ℝ) (force_aspect : Option ℝ) : ℝ :=
  h_fov_deg / aspectOf w h force_aspect

/-- Horizontal pixel angle: `np.linspace(-h_fov/2, h_fov/2, w)` at column `i`. -/
noncomputable def x_ang (w : ℕ) (h_fov_deg : ℝ) (i : ℕ) : ℝ :=
  linspace (-h_fov_deg / 2) (h_fov_deg / 2) w i

/-- Vertical pixel angle: `np.linspace(v_fov/2, -v_fov/2, h)` at row `j`
    (row 0 = top = most positive angle). -/
noncomputable def y_ang (w h : ℕ) (h_fov_deg : ℝ) (force_aspect : Option ℝ) (j : ℕ) : ℝ :=
  linspace (v_fov_deg w h h_fov_deg force_aspect / 2)
    (-(v_fov_deg w h h_fov_deg force_aspect) / 2) h j

/-- Function `rotate_coords(x, y, yaw_deg)`: the implemented rotation
    `dx = x*sin + y*cos`, `dy = x*cos - y*sin` (local x = perpendicular,
    y = along flight; yaw clockwise from North). -/
noncomputable def rotate_coords (x y yaw_deg : ℝ) : ℝ × ℝ :=
  let rad := radians yaw_deg
  (x * sin rad + y * cos rad, x * cos rad - y * sin rad)

/-- The clipped angle-from-nadir of `project_ray`:
    `np.clip(pitch_rad - yv_rad, -pi/2 + 0.01, pi/2 - 0.01)`. -/
noncomputable def ang_y_nadir (total_p yv : ℝ) : ℝ :=
  clip (radians total_p - radians yv) (-(π / 2) + 0.01) (π / 2 - 0.01)

/-- Along-axis distance `dist_y = alt * np.tan(ang_y_nadir)`. -/
noncomputable def dist_y (alt total_p yv : ℝ) : ℝ :=
  alt * tan (ang_y_nadir total_p yv)

/-- Perpendicular distance `dist_x = alt * np.tan(ang_x) / np.cos(ang_y_nadir)` with
    `ang_x = radians(xv + total_r)` (perpendicular ground distance). -/
noncomputable def dist_x (alt total_r total_p xv yv : ℝ) : ℝ :=
  alt * tan (radians (xv + total_r)) / cos (ang_y_nadir total_p yv)

/-- Function `project_ray` evaluated at pixel (row `j`, column `i`), returning the
    `(lons, lats)` entry at that pixel. -/
noncomputable def project_ray (lat_origin lon_origin alt total_r total_p total_y : ℝ)
    (w h : ℕ) (fov : ℝ) (force_aspect : Option ℝ) (j i : ℕ) : ℝ × ℝ :=
  let xv := x_ang w fov i
  let yv := y_ang w h fov force_aspect j
  let d := rotate_coords (dist_x alt total_r total_p xv yv) (dist_y alt total_p yv) total_y
  (lon_origin + d.1 / (111132.0 * cos (radians lat_origin)),
   lat_origin + d.2 / 111132.0)

/-- One metadata row as consumed by the engine loop in `run`. -/
structure Pose where
  GPS_Latitude : ℝ
  GPS_Longitude : ℝ
  GPS_Altitude : ℝ
  ATT_Pitch : ℝ
  ATT_Roll : ℝ
  ATT_Yaw : ℝ

/-- The per-pixel projection as invoked by `run`: gimbal stabilization sets
    `t_pitch = cam_pitch`, `t_roll = 0.0`, and
    `t_yaw = (ATT_Yaw + cam_yaw) % 360`; the aspect is forced to 4/3. -/
noncomputable def runPixel (pose : Pose) (cam_pitch cam_yaw h_fov : ℝ)
    (w h : ℕ) (j i : ℕ) : ℝ × ℝ :=
  project_ray pose.GPS_Latitude pose.GPS_Longitude pose.GPS_Altitude
    0.0 cam_pitch (mod360 (pose.ATT_Yaw + cam_yaw)) w h h_fov (some (4.0 / 3.0)) j i

/-- Footprint corners and center, each a `(lon, lat)` pair as in the code. -/
structure GroundFootprint where
  TL : ℝ × ℝ
  TR : ℝ × ℝ
  BL : ℝ × ℝ
  BR : ℝ × ℝ
  center : ℝ × ℝ

/-- Corner/center extraction of `run`: `lons[0,0]`, `lons[0,-1]`, `lons[-1,0]`,
    `lons[-1,-1]`, and `lons[int(h/2), int(w/2)]`. -/
noncomputable def projectFootprint (pose : Pose) (cam_pitch cam_yaw h_fov : ℝ)
    (w h : ℕ) : GroundFootprint :=
  { TL := runPixel pose cam_pitch cam_yaw h_fov w h 0 0
    TR := runPixel pose cam_pitch cam_yaw h_fov w h 0 (w - 1)
    BL := runPixel pose cam_pitch cam_yaw h_fov w h (h - 1) 0
    BR := runPixel pose cam_pitch cam_yaw h_fov w h (h - 1) (w - 1)
    center := runPixel pose cam_pitch cam_yaw h_fov w h (h / 2) (w / 2) }

/-! ## Geometric verifier — src/pipeline/analysis_report.py -/

/-- Image dimensions module constants of analysis_report.py. -/
def IMG_W : ℕ := 1600

def IMG_H : ℕ := 1300

/-- Function `haversine(lon1, lat1, lon2, lat2)`: distance in meters between two
    lat/lon points, Earth radius 6,371,000 m. -/
noncomputable def haversine (lon1 lat1 lon2 lat2 : ℝ) : ℝ :=
  let lon1r := radians lon1
  let lat1r := radians lat1
  let lon2r := radians lon2
  let lat2r := radians lat2
  let dlon := lon2r - lon1r
  let dlat := lat2r - lat1r
  let a := sin (dlat / 2) ^ 2 + cos lat1r * cos lat2r * sin (dlon / 2) ^ 2
  let c := 2 * arcsin (Real.sqrt a)
  c * 6371000

/-- Python `round(x, 2)` modelled as rounding `x * 100` to the nearest integer
    (Python uses round-half-even on floats; the two differ only at exact
    half-cent values). -/
noncomputable def round2 (x : ℝ) : ℝ := ((round (x * 100) : ℤ) : ℝ) / 100

/-- The `'Status'` value of a quality row. -/
inductive GeomStatus where
  | valid
  | distorted
deriving DecidableEq, Repr

/-- One row of the verification corner table (`verification_corners.csv`). -/
structure CornerRow where
  filename : String
  MRK_Lat : ℝ
  MRK_Lon : ℝ
  Center_Lat : ℝ
  Center_Lon : ℝ
  TL_Lat : ℝ
  TL_Lon : ℝ
  TR_Lat : ℝ
  TR_Lon : ℝ
  BL_Lat : ℝ
  BL_Lon : ℝ
  BR_Lat : ℝ
  BR_Lon : ℝ

/-- One row of the geometric-quality table (`Table_3_3_Geometric_Verification.csv`). -/
structure QualityRow where
  filename : String
  Footprint_Width_m : ℝ
  Footprint_Height_m : ℝ
  Coverage_Area_m2 : ℝ
  GSD_cm_px : ℝ
  Status : GeomStatus

/-- The loop body of `analyze_geometry` for one corner row. -/
noncomputable def analyzeRow (r : CornerRow) : QualityRow :=
  let width_m := haversine r.TL_Lon r.TL_Lat r.TR_Lon r.TR_Lat
  let height_m := haversine r.TL_Lon r.TL_Lat r.BL_Lon r.BL_Lat
  let area_m2 := width_m * height_m
  let gsd_cm := width_m / (IMG_W : ℝ) * 100
  { filename := r.filename
    Footprint_Width_m := round2 width_m
    Footprint_Height_m := round2 height_m
    Coverage_Area_m2 := round2 area_m2
    GSD_cm_px := round2 gsd_cm
    Status := if gsd_cm < 20 then .valid else .distorted }

/-- Mean of a list of reals (`Series.mean`). -/
noncomputable def meanList (l : List ℝ) : ℝ := l.sum / (l.length : ℝ)

/-- Observable outcome of `analyze_geometry`. -/
inductive AnalyzeResult where
  | skippedMissing
      -- corners file absent: warning printed, no table written, normal return
  | keyErrorAfterWrite (written : List QualityRow)
      -- the quality CSV was written, then an uncaught KeyError propagated
  | completed (written : List QualityRow) (avg_gsd : ℝ)

/-- Function `analyze_geometry`: `none` models a missing corners file. With a present
    file holding `rows`, the quality table `res_df` is built and written, then
    `res_df['GSD_cm_px'].mean()` is taken; on an empty table that column does
    not exist, so a `KeyError` is raised after the write. -/
noncomputable def analyze_geometry (input : Option (List CornerRow)) : AnalyzeResult :=
  match input with
  | none => .skippedMissing
  | some rows =>
    let table := rows.map analyzeRow
    if rows.isEmpty then .keyErrorAfterWrite table
    else .completed table (meanList (table.map QualityRow.GSD_cm_px))

/-! ## Engine loop of `run` in georeference_images.py.

The loop body touches external collaborators (the filesystem, `gdal.Open`,
`project_ray`, `gdal.Translate`/`gdal.Warp`).  Which of them fails for a given
image is input data here; the control flow around them (the `continue` for a
missing file, the `try`/`except` swallowing any exception and moving to the
next image, and the position of `verification_rows.append` BEFORE the
`gdal.Translate`/`gdal.Warp` calls) is translated from the source. -/

/-- How processing of one image terminates. -/
inductive ImgOutcome where
  | missing       -- `os.path.exists` is false: `continue`
  | openFail      -- `gdal.Open`/`RasterXSize` raises, before the append
  | projectFail   -- `project_ray` raises, before the append
  | rectifyFail   -- `gdal.Translate`/`gdal.Warp` raises, AFTER the append
  | ok
deriving DecidableEq, Repr

/-- One image job: its filename, pose row and pixel size, and where (if
    anywhere) its processing fails. -/
structure ImgJob where
  filename : String
  pose : Pose
  w : ℕ
  h : ℕ
  outcome : ImgOutcome

/-- The verification row appended for a successfully projected image. -/
noncomputable def mkCornerRow (job : ImgJob) (cam_pitch cam_yaw h_fov : ℝ) : CornerRow :=
  let fp := projectFootprint job.pose cam_pitch cam_yaw h_fov job.w job.h
  { filename := job.filename
    MRK_Lat := job.pose.GPS_Latitude
    MRK_Lon := job.pose.GPS_Longitude
    Center_Lat := fp.center.2
    Center_Lon := fp.center.1
    TL_Lat := fp.TL.2
    TL_Lon := fp.TL.1
    TR_Lat := fp.TR.2
    TR_Lon := fp.TR.1
    BL_Lat := fp.BL.2
    BL_Lon := fp.BL.1
    BR_Lat := fp.BR.2
    BR_Lon := fp.BR.1 }

/-- The `verification_rows` list produced by the engine loop of `run`: a
    missing file hits `continue`; an exception from `gdal.Open` or
    `project_ray` occurs before the append, so the row is dropped; an
    exception from `gdal.Translate`/`gdal.Warp` occurs after the append, so
    the row stays.  Every exception is caught and the loop proceeds with the
    next image. -/
noncomputable def georefVerRows (cam_pitch cam_yaw h_fov : ℝ) :
    List ImgJob → List CornerRow
  | [] => []
  | job :: rest =>
    match job.outcome with
    | .missing => georefVerRows cam_pitch cam_yaw h_fov rest
    | .openFail => georefVerRows cam_pitch cam_yaw h_fov rest
    | .projectFail => georefVerRows cam_pitch cam_yaw h_fov rest
    | .rectifyFail =>
        mkCornerRow job cam_pitch cam_yaw h_fov ::
          georefVerRows cam_pitch cam_yaw h_fov rest
    | .ok =>
        mkCornerRow job cam_pitch cam_yaw h_fov ::
          georefVerRows cam_pitch cam_yaw h_fov rest

/-- The downstream quality table is one `analyzeRow` per verification row. -/
noncomputable def qualityTable (rows : List CornerRow) : List QualityRow :=
  rows.map analyzeRow

/-! ## Trajectory smoother — src/pipeline/kalman_smoother.py

`filterpy.kalman.KalmanFilter(dim_x=4, dim_z=2)` with the script's settings:
state `x = [lat, lat_vel, lon, lon_vel]`, `P = 10·I`, `R = 1e-5·I`,
`H = [[1,0,0,0],[0,0,1,0]]`.  Per non-first sample: the constant-velocity
transition `F(dt)`, process noise `Q_discrete_white_noise(dim=2, dt, var=1e-6,
block_size=2)`, then filterpy `predict` and `update`. -/

/-- Kalman filter state: mean vector and covariance. -/
structure KState where
  x : Fin 4 → ℝ
  P : Matrix (Fin 4) (Fin 4) ℝ

/-- Measurement matrix `kf.H`. -/
noncomputable def kalmanH : Matrix (Fin 2) (Fin 4) ℝ := !![1, 0, 0, 0; 0, 0, 1, 0]

/-- Measurement noise `kf.R = eye(2) * 0.00001`. -/
noncomputable def kalmanR : Matrix (Fin 2) (Fin 2) ℝ := (0.00001 : ℝ) • 1

/-- Constant-velocity transition `kf.F` for time step `dt`. -/
noncomputable def kalmanF (dt : ℝ) : Matrix (Fin 4) (Fin 4) ℝ :=
  !![1, dt, 0, 0; 0, 1, 0, 0; 0, 0, 1, dt; 0, 0, 0, 1]

/-- Process noise `Q_discrete_white_noise(dim=2, dt=dt, var=1e-6, block_size=2)`:
    the 2×2 block `var * [[dt^4/4, dt^3/2], [dt^3/2, dt^2]]` repeated on the
    diagonal. -/
noncomputable def kalmanQ (dt : ℝ) : Matrix (Fin 4) (Fin 4) ℝ :=
  let v : ℝ := 0.000001
  !![v * (dt ^ 4 / 4), v * (dt ^ 3 / 2), 0, 0;
     v * (dt ^ 3 / 2), v * dt ^ 2, 0, 0;
     0, 0, v * (dt ^ 4 / 4), v * (dt ^ 3 / 2);
     0, 0, v * (dt ^ 3 / 2), v * dt ^ 2]

/-- filterpy `predict`: `x ← F x`, `P ← F P Fᵀ + Q`. -/
noncomputable def kalmanPredict (dt : ℝ) (s : KState) : KState :=
  { x := (kalmanF dt).mulVec s.x
    P := kalmanF dt * s.P * (kalmanF dt)ᵀ + kalmanQ dt }

/-- filterpy `update` with measurement `z`:
    `y = z - H x`, `S = H P Hᵀ + R`, `K = P Hᵀ S⁻¹`, `x ← x + K y`,
    `P ← (I - K H) P (I - K H)ᵀ + K R Kᵀ`. -/
noncomputable def kalmanUpdate (z : Fin 2 → ℝ) (s : KState) : KState :=
  let y := z - kalmanH.mulVec s.x
  let S := kalmanH * s.P * kalmanHᵀ + kalmanR
  let K := s.P * kalmanHᵀ * S⁻¹
  let IKH := 1 - K * kalmanH
  { x := s.x + K.mulVec y
    P := IKH * s.P * IKHᵀ + K * kalmanR * Kᵀ }

/-- One loop iteration for a non-first sample. -/
noncomputable def kalmanStep (dt : ℝ) (z : Fin 2 → ℝ) (s : KState) : KState :=
  kalmanUpdate z (kalmanPredict dt s)

/-- Initial state: `x = [lat0, 0, lon0, 0]`, `P = eye(4) * 10`. -/
noncomputable def kalmanInit (lat0 lon0 : ℝ) : KState :=
  { x := ![lat0, 0, lon0, 0], P := (10 : ℝ) • 1 }

/-- The loop over samples after the first: each sample `(t, lat, lon)` runs a
    predict/update with `dt = t - tprev` and records `(x[0], x[2])`. -/
noncomputable def smoothAux (s : KState) (tprev : ℝ) :
    List (ℝ × ℝ × ℝ) → List (ℝ × ℝ)
  | [] => []
  | (t, lat, lon) :: rest =>
    let s' := kalmanStep (t - tprev) ![lat, lon] s
    (s'.x 0, s'.x 2) :: smoothAux s' t rest

/-- The whole smoothing loop on `(time_sec, lat, lon)` triples: the first
    sample only seeds the state (`i > 0` guards predict/update) and is echoed
    unchanged. -/
noncomputable def kalmanSmooth : List (ℝ × ℝ × ℝ) → List (ℝ × ℝ)
  | [] => []
  | (t0, lat0, lon0) :: rest =>
    (lat0, lon0) :: smoothAux (kalmanInit lat0 lon0) t0 rest

/-- One input row of the trajectory table; `rest` stands for all columns other
    than the ones the smoother reads or writes. -/
structure TrajRow (α : Type) where
  droneTime_MS : ℝ
  GPS_Latitude : ℝ
  GPS_Longitude : ℝ
  rest : α

/-- One output row: raw positions preserved under `_Raw` names, smoothed
    values overwriting the primary fields, all else untouched. -/
structure SmoothedTrajRow (α : Type) where
  droneTime_MS : ℝ
  GPS_Latitude : ℝ
  GPS_Longitude : ℝ
  GPS_Latitude_Raw : ℝ
  GPS_Longitude_Raw : ℝ
  rest : α

/-- The column rewrite of `kalman_smoother.run` on one row: raw values copied
    into the `_Raw` columns, the smoothed pair overwriting the primary
    position columns, everything else untouched. -/
noncomputable def smoothedRowOf {α : Type} (r : TrajRow α) (p : ℝ × ℝ) :
    SmoothedTrajRow α :=
  { droneTime_MS := r.droneTime_MS
    GPS_Latitude := p.1
    GPS_Longitude := p.2
    GPS_Latitude_Raw := r.GPS_Latitude
    GPS_Longitude_Raw := r.GPS_Longitude
    rest := r.rest }

/-- Function `kalman_smoother.run` on a dataframe: smooth the `(droneTime_MS/1000,
    lat, lon)` sequence, then write the raw columns aside and overwrite the
    primary position columns with the smoothed values, row by row. -/
noncomputable def kalman_run {α : Type} (rows : List (TrajRow α)) :
    List (SmoothedTrajRow α) :=
  let smoothed := kalmanSmooth (rows.map fun r =>
    (r.droneTime_MS / 1000.0, r.GPS_Latitude, r.GPS_Longitude))
  List.zipWith smoothedRowOf rows smoothed

/-! ## Spec-side pixel formula (written from the claim wording, to be compared
    with the source translation above) -/

/-- Spec: `angle_from_nadir = camera_pitch - vertical_pixel_angle`, clamped
    away from ±90° (to ±(π/2 − 0.01) rad ≈ ±89.43°). -/
noncomputable def specAngleFromNadir (camera_pitch v_pixel_angle : ℝ) : ℝ :=
  clip (radians camera_pitch - radians v_pixel_angle) (-(π / 2) + 0.01) (π / 2 - 0.01)

/-- Spec: along-axis ground distance `altitude * tan(angle_from_nadir)`. -/
noncomputable def specAlong (altitude camera_pitch v_pixel_angle : ℝ) : ℝ :=
  altitude * tan (specAngleFromNadir camera_pitch v_pixel_angle)

/-- Spec: perpendicular ground distance
    `altitude * tan(horizontal_pixel_angle) / cos(angle_from_nadir)`. -/
noncomputable def specPerp (altitude camera_pitch h_pixel_angle v_pixel_angle : ℝ) : ℝ :=
  altitude * tan (radians h_pixel_angle) / cos (specAngleFromNadir camera_pitch v_pixel_angle)

/-- Spec: rotate (perp, along) into (east, north) with
    `east = perp*sin(yaw) + along*cos(yaw)`,
    `north = perp*cos(yaw) - along*sin(yaw)`. -/
noncomputable def specEastNorth (perp along yaw_deg : ℝ) : ℝ × ℝ :=
  (perp * sin (radians yaw_deg) + along * cos (radians yaw_deg),
   perp * cos (radians yaw_deg) - along * sin (radians yaw_deg))

/-- Spec: pixel ground coordinate `(lon, lat)` from the displacement, with
    effective yaw `(platform_yaw + camera_yaw_offset) mod 360`,
    `delta_lat = north / 111132.0` and
    `delta_lon = east / (111132.0 * cos(latitude_rad))`. -/
noncomputable def specPixelLonLat (latitude longitude altitude camera_pitch
    platform_yaw camera_yaw_offset h_pixel_angle v_pixel_angle : ℝ) : ℝ × ℝ :=
  let yaw := mod360 (platform_yaw + camera_yaw_offset)
  let en := specEastNorth (specPerp altitude camera_pitch h_pixel_angle v_pixel_angle)
    (specAlong altitude camera_pitch v_pixel_angle) yaw
  (longitude + en.1 / (111132.0 * cos (radians latitude)),
   latitude + en.2 / 111132.0)

/-- Concrete test pose from the spec scenario: lat 10, lon 20, altitude 100 m,
    platform yaw 0 (and roll/pitch 0, which the engine ignores anyway). -/
noncomputable def nadirPose : Pose :=
  { GPS_Latitude := 10, GPS_Longitude := 20, GPS_Altitude := 100
    ATT_Pitch := 0, ATT_Roll := 0, ATT_Yaw := 0 }

/-- A constant-position trajectory row used as a concrete smoother input. -/
noncomputable def constRow (t : ℝ) : TrajRow Unit :=
  { droneTime_MS := t, GPS_Latitude := 1, GPS_Longitude := 2, rest := () }

/-- An all-zero corner row used as a concrete verifier input. -/
noncomputable def zeroCornerRow : CornerRow :=
  { filename := "img", MRK_Lat := 0, MRK_Lon := 0, Center_Lat := 0, Center_Lon := 0, TL_Lat := 0, TL_Lon := 0, TR_Lat := 0, TR_Lon := 0, BL_Lat := 0, BL_Lon := 0, BR_Lat := 0, BR_Lon := 0 }

/-- A concrete image job that fails at the rectification stage. -/
noncomputable def jobRectFail : ImgJob :=
  { filename := "a.jpg", pose := nadirPose, w := 1600, h := 1300, outcome := .rectifyFail }

/-- A concrete image job that succeeds. -/
noncomputable def jobOk : ImgJob :=
  { filename := "b.jpg", pose := nadirPose, w := 1600, h := 1300, outcome := .ok }

/-! ## Helper lemmas -/

theorem clip_bounds_le : -(π / 2) + (0.01 : ℝ) ≤ π / 2 - 0.01 := by
  nlinarith [pi_gt_three]

theorem clip_eq_lo {v lo hi : ℝ} (h1 : v ≤ lo) (h2 : lo ≤ hi) : clip v lo hi = lo := by
  unfold clip
  rw [max_eq_right h1, min_eq_left h2]

theorem clip_eq_hi {v lo hi : ℝ} (h1 : hi ≤ v) (h2 : lo ≤ hi) : clip v lo hi = hi := by
  unfold clip
  rw [max_eq_left (le_trans h2 h1), min_eq_right h1]

theorem clip_mem {v lo hi : ℝ} (h : lo ≤ hi) :
    lo ≤ clip v lo hi ∧ clip v lo hi ≤ hi := by
  unfold clip
  constructor
  · exact le_min (le_max_right v lo) h
  · exact min_le_right _ _

theorem mod360_zero : mod360 0 = 0 := by
  unfold mod360
  norm_num

theorem radians_zero : radians 0 = 0 := by
  unfold radians
  ring

theorem radians_neg (d : ℝ) : radians (-d) = -radians d := by
  unfold radians
  ring

theorem cos_neg_pi_div_two_add : cos (-(π / 2) + (0.01 : ℝ)) = sin 0.01 := by
  rw [show -(π / 2) + (0.01 : ℝ) = -(π / 2 - 0.01) by ring, Real.cos_neg,
    Real.cos_pi_div_two_sub]

theorem y_ang_top_eval : y_ang 1600 1300 82 (some (4.0 / 3.0)) 0 = 30.75 := by
  norm_num [y_ang, v_fov_deg, aspectOf, linspace]

theorem y_ang_bottom_eval :
    y_ang 1600 1300 82 (some (4.0 / 3.0)) (1300 - 1) = -30.75 := by
  norm_num [y_ang, v_fov_deg, aspectOf, linspace]

theorem x_ang_left_eval : x_ang 1600 82 0 = -41 := by
  norm_num [x_ang, linspace]

theorem x_ang_right_eval : x_ang 1600 82 (1600 - 1) = 41 := by
  norm_num [x_ang, linspace]

/-- At camera pitch −90° the top row's angle from nadir (−120.75°) lies below
    the lower clamp, so it is clipped to −(π/2) + 0.01. -/
theorem ang_nadir_neg90_top : ang_y_nadir (-90) 30.75 = -(π / 2) + 0.01 := by
  unfold ang_y_nadir
  refine clip_eq_lo ?_ clip_bounds_le
  unfold radians
  nlinarith [pi_pos]

/-! ## Theorems -/

/-- Claim C1: for every pose, camera mount, and pixel grid, the projector's
    pixel ground coordinate (effective roll fixed at 0 by gimbal
    stabilization) equals the spec formula: clamped angle-from-nadir
    `camera_pitch - vertical_pixel_angle`, along distance `alt * tan`,
    perpendicular distance `alt * tan / cos`, rotation into (east, north) by
    the effective yaw `(platform_yaw + camera_yaw_offset) mod 360`, and
    conversion to degrees by 111132.0 and `111132.0 * cos(lat_rad)`. -/
theorem projector_pixel_matches_spec (pose : Pose) (cam_pitch cam_yaw h_fov : ℝ)
    (w h : ℕ) (j i : ℕ) :
    runPixel pose cam_pitch cam_yaw h_fov w h j i =
      specPixelLonLat pose.GPS_Latitude pose.GPS_Longitude pose.GPS_Altitude
        cam_pitch pose.ATT_Yaw cam_yaw
        (x_ang w h_fov i) (y_ang w h h_fov (some (4.0 / 3.0)) j) := by
  have h0 : ∀ a : ℝ, a + 0.0 = a := by intro a; norm_num
  simp [runPixel, project_ray, rotate_coords, dist_x, dist_y, ang_y_nadir,
    specPixelLonLat, specEastNorth, specPerp, specAlong, specAngleFromNadir, h0]

/-- Claim C2, evaluated at the failing input: for the straight-down pose
    (roll 0, yaw 0, camera pitch −90°, camera yaw offset 0, lat 10, lon 20,
    alt 100 m, 82° HFOV, 1600×1300, forced 4:3 aspect) the code's footprint
    has `TR_lat` exceeding `TL_lat` by more than 0.1 degrees (≈ 11 km on the
    ground), so the claimed horizontal symmetry `TL_lat ≈ TR_lat` fails: the
    implemented `rotate_coords` maps the perpendicular (image-horizontal)
    displacement into latitude at yaw 0, contradicting its own comment
    (`dx = x*cos + y*sin`). -/
theorem nadir_symmetry_violated :
    (1 : ℝ) / 10 <
      (projectFootprint nadirPose (-90) 0 82 1600 1300).TR.2 -
      (projectFootprint nadirPose (-90) 0 82 1600 1300).TL.2 := by
  simp only [projectFootprint, runPixel, project_ray, rotate_coords, dist_x, dist_y,
    nadirPose, x_ang_left_eval, x_ang_right_eval, y_ang_top_eval, ang_nadir_neg90_top]
  norm_num [mod360_zero, radians_zero, cos_neg_pi_div_two_add, radians, neg_div,
    Real.tan_neg]
  rw [show (-(π / 2) + 1 / 100 : ℝ) = -(π / 2 - 1 / 100) by ring, Real.cos_neg,
    Real.cos_pi_div_two_sub]
  have hts : (0.71 : ℝ) < tan (41 * π / 180) := by
    have h41 : (0 : ℝ) < 41 * π / 180 := by positivity
    have h41b : 41 * π / 180 < π / 2 := by nlinarith [pi_pos]
    have h41c := Real.lt_tan h41 h41b
    nlinarith [pi_gt_d4]
  have hs1 : sin ((1 : ℝ) / 100) < 1 / 100 := Real.sin_lt (by norm_num)
  have hs0 : (0 : ℝ) < sin ((1 : ℝ) / 100) :=
    Real.sin_pos_of_pos_of_lt_pi (by norm_num) (by nlinarith [pi_gt_three])
  have hsum : 100 * tan (41 * π / 180) / sin ((1 : ℝ) / 100) / 111132 +
      100 * tan (41 * π / 180) / sin ((1 : ℝ) / 100) / 111132 =
      200 * tan (41 * π / 180) / (111132 * sin ((1 : ℝ) / 100)) := by
    field_simp
    ring
  rw [hsum, lt_div_iff₀ (mul_pos (by norm_num) hs0)]
  nlinarith [hts, hs1, hs0]

/-- At camera pitch 150° the top row's angle from nadir (119.25°) exceeds the
    upper clamp, so it is clipped to π/2 − 0.01. -/
theorem ang_nadir_150_top : ang_y_nadir 150 30.75 = π / 2 - 0.01 := by
  unfold ang_y_nadir
  refine clip_eq_hi ?_ clip_bounds_le
  unfold radians
  nlinarith [pi_pos]

/-- At camera pitch 150° the bottom row's angle from nadir (180.75°) also
    clips to π/2 − 0.01. -/
theorem ang_nadir_150_bottom : ang_y_nadir 150 (-30.75) = π / 2 - 0.01 := by
  unfold ang_y_nadir
  refine clip_eq_hi ?_ clip_bounds_le
  unfold radians
  nlinarith [pi_pos]

/-- Claim C3 counterexample: a camera pitch of 150° puts the top-row pixels'
    angle from nadir (119.25°) beyond +90°, yet the projector does not reject
    the pose — it clips both extreme rows to the same bound and produces a
    footprint whose TL and BL corners coincide exactly, so the corners are
    neither distinct nor rejected. -/
theorem beyond_nadir_pose_not_rejected :
    π / 2 < radians 150 - radians 30.75 ∧
      (projectFootprint nadirPose 150 0 82 1600 1300).TL =
        (projectFootprint nadirPose 150 0 82 1600 1300).BL := by
  constructor
  · unfold radians
    nlinarith [pi_gt_three]
  · simp only [projectFootprint, runPixel, project_ray, rotate_coords, dist_x, dist_y,
      nadirPose, x_ang_left_eval, y_ang_top_eval, y_ang_bottom_eval,
      ang_nadir_150_top, ang_nadir_150_bottom]

/-- Claim C3 as the code actually behaves: every pixel's angle from nadir is
    clamped into [−π/2 + 0.01, π/2 − 0.01], so its cosine is strictly
    positive and the projected distances are always finite — no pose is
    rejected. -/
theorem ang_y_nadir_clamped (total_p yv : ℝ) :
    -(π / 2) + 0.01 ≤ ang_y_nadir total_p yv ∧
      ang_y_nadir total_p yv ≤ π / 2 - 0.01 ∧
      0 < cos (ang_y_nadir total_p yv) := by
  obtain ⟨h1, h2⟩ := clip_mem (v := radians total_p - radians yv) clip_bounds_le
  refine ⟨h1, h2, Real.cos_pos_of_mem_Ioo ⟨?_, ?_⟩⟩
  · calc -(π / 2) < -(π / 2) + 0.01 := by norm_num
    _ ≤ _ := h1
  · calc ang_y_nadir total_p yv ≤ π / 2 - 0.01 := h2
    _ < π / 2 := by norm_num

/-- Claim C4 counterexample: an image whose processing fails only at
    rectification (`gdal.Translate`/`gdal.Warp`) has already been appended to
    `verification_rows`, so it appears in the verification corner table AND in
    the geometric-quality table derived from it — it is not excluded from
    downstream outputs. -/
theorem rectify_failure_not_excluded :
    "a.jpg" ∈ (georefVerRows (-35) 90 82 [jobRectFail, jobOk]).map CornerRow.filename ∧
      "a.jpg" ∈ (qualityTable (georefVerRows (-35) 90 82
        [jobRectFail, jobOk])).map QualityRow.filename := by
  constructor <;>
    simp [georefVerRows, qualityTable, mkCornerRow, analyzeRow, jobRectFail, jobOk]

/-- Filenames surviving into the verification table: exactly the images whose
    processing reached the append — those that succeeded or failed only at
    rectification. Images missing, unreadable, or failing projection are
    excluded, and a failure never stops the loop. -/
theorem georefVerRows_filenames (cam_pitch cam_yaw h_fov : ℝ) (jobs : List ImgJob) :
    (georefVerRows cam_pitch cam_yaw h_fov jobs).map CornerRow.filename =
      (jobs.filter fun j =>
        j.outcome == ImgOutcome.rectifyFail || j.outcome == ImgOutcome.ok).map
        ImgJob.filename := by
  induction jobs with
  | nil => rfl
  | cons job rest ih =>
    cases h : job.outcome <;>
      simp [georefVerRows, h, List.filter_cons, mkCornerRow, ih]

/-- Claim C4 as the code actually behaves: processing always continues past a
    failed image, and both downstream tables list exactly the images that
    reached the verification append — successes and rectification failures;
    images that were missing, unreadable, or failed projection appear in
    neither table. -/
theorem run_skips_failures_tables_agree (cam_pitch cam_yaw h_fov : ℝ)
    (jobs : List ImgJob) :
    (georefVerRows cam_pitch cam_yaw h_fov jobs).map CornerRow.filename =
      (jobs.filter fun j =>
        j.outcome == ImgOutcome.rectifyFail || j.outcome == ImgOutcome.ok).map
        ImgJob.filename ∧
    (qualityTable (georefVerRows cam_pitch cam_yaw h_fov jobs)).map
        QualityRow.filename =
      (jobs.filter fun j =>
        j.outcome == ImgOutcome.rectifyFail || j.outcome == ImgOutcome.ok).map
        ImgJob.filename := by
  refine ⟨georefVerRows_filenames cam_pitch cam_yaw h_fov jobs, ?_⟩
  rw [← georefVerRows_filenames cam_pitch cam_yaw h_fov jobs]
  simp only [qualityTable, List.map_map]
  exact List.map_congr_left fun a _ => rfl

/-- The haversine distance from a point to itself is 0. -/
theorem haversine_self (lon lat : ℝ) : haversine lon lat lon lat = 0 := by
  simp [haversine, sub_self, Real.sqrt_zero, Real.arcsin_zero]

/-- sqrt(1/2) is sin(π/4). -/
theorem sqrt_half_eq : Real.sqrt (1 / 2) = Real.sqrt 2 / 2 := by
  rw [show (1 / 2 : ℝ) = (Real.sqrt 2 / 2) ^ 2 by
    rw [div_pow, Real.sq_sqrt (by norm_num : (0 : ℝ) ≤ 2)]; norm_num]
  exact Real.sqrt_sq (by positivity)

/-- Haversine distance from the north pole (lat 90) to the equator point
    (0, 0): a quarter of the Earth circumference, `(π/2) * 6371000`. -/
theorem haversine_pole_equator : haversine 0 90 0 0 = 3185500 * π := by
  unfold haversine radians
  norm_num
  rw [show -(90 * π / 180) / 2 = -(π / 4) by ring, Real.sin_neg, neg_sq,
    Real.sin_pi_div_four]
  rw [show (Real.sqrt 2 / 2) ^ 2 = 1 / 2 by
    rw [div_pow, Real.sq_sqrt (by norm_num : (0 : ℝ) ≤ 2)]; norm_num]
  rw [sqrt_half_eq, ← Real.sin_pi_div_four,
    Real.arcsin_sin (by nlinarith [pi_pos]) (by nlinarith [pi_pos])]
  ring

/-- Haversine distance from (0, 0) to the north pole along the same meridian:
    the same quarter circumference. -/
theorem haversine_equator_pole : haversine 0 0 0 90 = 3185500 * π := by
  unfold haversine radians
  norm_num
  rw [show (90 : ℝ) * π / 180 / 2 = π / 4 by ring, Real.sin_pi_div_four]
  rw [show (Real.sqrt 2 / 2) ^ 2 = 1 / 2 by
    rw [div_pow, Real.sq_sqrt (by norm_num : (0 : ℝ) ≤ 2)]; norm_num]
  rw [sqrt_half_eq, ← Real.sin_pi_div_four,
    Real.arcsin_sin (by nlinarith [pi_pos]) (by nlinarith [pi_pos])]
  ring

/-- Claim C5 counterexample: two verification rows identical except for the
    platform (MRK) position produce identical quality rows, even though their
    platform-to-center great-circle distances are 0 m and ~10,007 km: the
    verifier derives no `mrk_to_center_offset_m` value from the platform
    position (and reports no mean offset — only the mean GSD). -/
theorem quality_row_has_no_platform_offset :
    analyzeRow zeroCornerRow = analyzeRow { zeroCornerRow with MRK_Lat := 90 } ∧
    haversine 0 0 0 0 = 0 ∧
    0 < haversine 0 90 0 0 := by
  refine ⟨rfl, haversine_self 0 0, ?_⟩
  rw [haversine_pole_equator]
  positivity

/-- Claim C5 as the code actually behaves: the quality row is a function of
    the corner coordinates and filename alone — the platform (MRK) position
    and the image center never enter it, so no platform-to-center offset is
    computed. -/
theorem analyzeRow_ignores_platform_and_center (r : CornerRow)
    (mlat mlon clat clon : ℝ) :
    analyzeRow { r with MRK_Lat := mlat, MRK_Lon := mlon, Center_Lat := clat, Center_Lon := clon } =
      analyzeRow r := rfl

/-- Rounding to 2 decimals is strictly monotone across a gap of 1/50. -/
theorem round2_lt {a b : ℝ} (h : a + 1 / 50 ≤ b) : round2 a < round2 b := by
  unfold round2
  have h1 := round_le_add_half (a * 100)
  have h2 := sub_half_lt_round (b * 100)
  have h3 : ((round (a * 100) : ℤ) : ℝ) < ((round (b * 100) : ℤ) : ℝ) := by
    nlinarith
  linarith

/-- Claim C6 counterexample: for a row whose top edge spans equator-to-pole,
    the reported GSD is the one computed with the fixed module constant
    `IMG_W = 1600`; it differs from the value the claim prescribes for an
    image whose own pixel width is 800 — the verifier never consults the
    image's own width. -/
theorem gsd_uses_fixed_width_constant :
    (analyzeRow { zeroCornerRow with TR_Lat := 90 }).GSD_cm_px =
      round2 (haversine 0 0 0 90 / 1600 * 100) ∧
    (analyzeRow { zeroCornerRow with TR_Lat := 90 }).GSD_cm_px ≠
      round2 (haversine 0 0 0 90 / 800 * 100) := by
  have heq : (analyzeRow { zeroCornerRow with TR_Lat := 90 }).GSD_cm_px =
      round2 (haversine 0 0 0 90 / 1600 * 100) := by
    norm_num [analyzeRow, zeroCornerRow, IMG_W]
  refine ⟨heq, ?_⟩
  have hgap : haversine 0 0 0 90 / 1600 * 100 + 1 / 50 ≤
      haversine 0 0 0 90 / 800 * 100 := by
    rw [haversine_equator_pole]
    nlinarith [pi_gt_three]
  rw [heq]
  exact ne_of_lt (round2_lt hgap)

/-- Claim C6 as the code actually behaves: each quality row reports
    width/height/area rounded to 2 decimals, and a GSD of
    `(width_m / 1600) * 100` rounded to 2 decimals, with the fixed constant
    `IMG_W = 1600` regardless of the image's own pixel width. -/
theorem quality_row_formulas (r : CornerRow) :
    (analyzeRow r).Footprint_Width_m =
      round2 (haversine r.TL_Lon r.TL_Lat r.TR_Lon r.TR_Lat) ∧
    (analyzeRow r).Footprint_Height_m =
      round2 (haversine r.TL_Lon r.TL_Lat r.BL_Lon r.BL_Lat) ∧
    (analyzeRow r).Coverage_Area_m2 =
      round2 (haversine r.TL_Lon r.TL_Lat r.TR_Lon r.TR_Lat *
        haversine r.TL_Lon r.TL_Lat r.BL_Lon r.BL_Lat) ∧
    (analyzeRow r).GSD_cm_px =
      round2 (haversine r.TL_Lon r.TL_Lat r.TR_Lon r.TR_Lat / 1600 * 100) := by
  refine ⟨rfl, rfl, rfl, ?_⟩
  norm_num [analyzeRow, IMG_W]

/-- Claim C10: the Status of every quality row is `valid` exactly when the
    unrounded GSD `(width_m / 1600) * 100` is strictly below 20 cm/pixel, and
    `distorted` otherwise. -/
theorem status_is_gsd_threshold (r : CornerRow) :
    ((analyzeRow r).Status = GeomStatus.valid ↔
      haversine r.TL_Lon r.TL_Lat r.TR_Lon r.TR_Lat / 1600 * 100 < 20) ∧
    ((analyzeRow r).Status = GeomStatus.distorted ↔
      ¬ haversine r.TL_Lon r.TL_Lat r.TR_Lon r.TR_Lat / 1600 * 100 < 20) := by
  have hc : ((IMG_W : ℕ) : ℝ) = 1600 := by norm_num [IMG_W]
  constructor <;>
  · simp only [analyzeRow, hc]
    split_ifs with h <;> simp [h]

/-- Claim C9, evaluated at the failing input: a present corners file with
    zero data rows makes `analyze_geometry` write an empty quality table and
    then raise `KeyError` to the caller (the `GSD_cm_px` column of an empty
    DataFrame does not exist), instead of the claimed warn-and-return; only a
    wholly missing corners file takes the warn-and-return path. -/
theorem empty_verifier_input_raises :
    analyze_geometry (some []) = AnalyzeResult.keyErrorAfterWrite [] ∧
    analyze_geometry none = AnalyzeResult.skippedMissing := by
  exact ⟨rfl, rfl⟩

/-- The smoothing loop emits exactly one output pair per input sample. -/
theorem smoothAux_length :
    ∀ (l : List (ℝ × ℝ × ℝ)) (s : KState) (t : ℝ),
      (smoothAux s t l).length = l.length
  | [], _, _ => rfl
  | (_, _, _) :: rest, s, _ => by
    simp [smoothAux, smoothAux_length rest]

theorem kalmanSmooth_length (l : List (ℝ × ℝ × ℝ)) :
    (kalmanSmooth l).length = l.length := by
  cases l with
  | nil => rfl
  | cons p rest =>
    obtain ⟨t0, la, lo⟩ := p
    simp [kalmanSmooth, smoothAux_length]

/-- Frame behaviour of the column rewrite over a zip of rows with equally
    many smoothed pairs. -/
theorem zip_smoothed_frame {α : Type} :
    ∀ (rows : List (TrajRow α)) (ps : List (ℝ × ℝ)), rows.length = ps.length →
      (List.zipWith smoothedRowOf rows ps).length = rows.length ∧
      (List.zipWith smoothedRowOf rows ps).map (fun r =>
          (r.droneTime_MS, r.GPS_Latitude_Raw, r.GPS_Longitude_Raw, r.rest)) =
        rows.map (fun r =>
          (r.droneTime_MS, r.GPS_Latitude, r.GPS_Longitude, r.rest)) ∧
      (List.zipWith smoothedRowOf rows ps).map (fun r =>
          (r.GPS_Latitude, r.GPS_Longitude)) = ps
  | [], [], _ => by simp
  | [], _ :: _, h => by simp at h
  | _ :: _, [], h => by simp at h
  | r :: rows, p :: ps, h => by
    obtain ⟨h1, h2, h3⟩ := zip_smoothed_frame rows ps (by simpa using h)
    simp [smoothedRowOf, h1, h2, h3]

/-- Claim C7: the smoother's output has one row per input row in order; each
    output row carries the original raw latitude/longitude under the `_Raw`
    fields, keeps every other column (`droneTime_MS` and the opaque rest)
    unchanged, and its primary position fields hold the Kalman-smoothed
    estimates. -/
theorem smoother_preserves_frame {α : Type} (rows : List (TrajRow α)) :
    (kalman_run rows).length = rows.length ∧
    (kalman_run rows).map (fun r =>
        (r.droneTime_MS, r.GPS_Latitude_Raw, r.GPS_Longitude_Raw, r.rest)) =
      rows.map (fun r =>
        (r.droneTime_MS, r.GPS_Latitude, r.GPS_Longitude, r.rest)) ∧
    (kalman_run rows).map (fun r => (r.GPS_Latitude, r.GPS_Longitude)) =
      kalmanSmooth (rows.map fun r =>
        (r.droneTime_MS / 1000.0, r.GPS_Latitude, r.GPS_Longitude)) := by
  exact zip_smoothed_frame rows _ (by rw [kalmanSmooth_length, List.length_map])

/-- The measurement model applied to a velocity-free state reads off the
    positions. -/
theorem kalmanH_mulVec (a b : ℝ) : kalmanH.mulVec ![a, 0, b, 0] = ![a, b] := by
  funext i
  fin_cases i <;>
    simp [kalmanH, Matrix.mulVec, Matrix.dotProduct, Fin.sum_univ_four]

/-- The constant-velocity transition fixes states with zero velocity. -/
theorem kalmanF_mulVec (dt a b : ℝ) :
    (kalmanF dt).mulVec ![a, 0, b, 0] = ![a, 0, b, 0] := by
  funext i
  fin_cases i <;>
    simp [kalmanF, Matrix.mulVec, Matrix.dotProduct, Fin.sum_univ_four]

/-- One predict/update cycle with a measurement equal to the current
    zero-velocity position estimate leaves the estimate unchanged: the
    innovation is zero, so the gain contributes nothing. -/
theorem kalmanStep_const (dt a b : ℝ) (s : KState) (hx : s.x = ![a, 0, b, 0]) :
    (kalmanStep dt ![a, b] s).x = ![a, 0, b, 0] := by
  unfold kalmanStep kalmanUpdate
  have hp : (kalmanPredict dt s).x = ![a, 0, b, 0] := by
    simp [kalmanPredict, hx, kalmanF_mulVec]
  simp only [hp, kalmanH_mulVec, sub_self, Matrix.mulVec_zero, add_zero]

/-- Constant measurements keep the whole smoothing loop pinned at the seeded
    position. -/
theorem smoothAux_const {a b : ℝ} :
    ∀ (l : List (ℝ × ℝ × ℝ)) (s : KState) (t : ℝ), s.x = ![a, 0, b, 0] →
      (∀ p ∈ l, p.2.1 = a ∧ p.2.2 = b) →
      smoothAux s t l = l.map (fun _ => (a, b))
  | [], _, _, _, _ => rfl
  | (t', la, lo) :: rest, s, t, hx, hall => by
    obtain ⟨h1, h2⟩ := hall (t', la, lo) (List.mem_cons_self _ _)
    simp only at h1 h2
    subst h1
    subst h2
    have hx' : (kalmanStep (t' - t) ![la, lo] s).x = ![la, 0, lo, 0] :=
      kalmanStep_const (t' - t) la lo s hx
    have htail := smoothAux_const rest (kalmanStep (t' - t) ![la, lo] s) t' hx'
      (fun p hp => hall p (List.mem_cons_of_mem _ hp))
    simp [smoothAux, hx', htail]

/-- Running `kalmanSmooth` on an all-constant position sequence returns that constant
    at every sample. -/
theorem kalmanSmooth_const (l : List (ℝ × ℝ × ℝ)) (a b : ℝ)
    (h : ∀ p ∈ l, p.2.1 = a ∧ p.2.2 = b) :
    kalmanSmooth l = l.map (fun _ => (a, b)) := by
  cases l with
  | nil => rfl
  | cons p rest =>
    obtain ⟨t0, la, lo⟩ := p
    obtain ⟨h1, h2⟩ := h (t0, la, lo) (List.mem_cons_self _ _)
    simp only at h1 h2
    subst h1
    subst h2
    have hx : (kalmanInit la lo).x = ![la, 0, lo, 0] := rfl
    have htail := smoothAux_const rest (kalmanInit la lo) t0 hx
      (fun p hp => h p (List.mem_cons_of_mem _ hp))
    simp [kalmanSmooth, htail]

/-- Claim C8: feeding the smoother a trajectory whose rows all carry one and
    the same (latitude, longitude) yields smoothed output equal to that
    constant position at every row — no drift. -/
theorem smoother_constant_input {α : Type} (rows : List (TrajRow α)) (a b : ℝ)
    (h : ∀ r ∈ rows, r.GPS_Latitude = a ∧ r.GPS_Longitude = b) :
    (kalman_run rows).map (fun r => (r.GPS_Latitude, r.GPS_Longitude)) =
      rows.map (fun _ => (a, b)) := by
  obtain ⟨-, -, h3⟩ := zip_smoothed_frame rows
    (kalmanSmooth (rows.map fun r =>
      (r.droneTime_MS / 1000.0, r.GPS_Latitude, r.GPS_Longitude)))
    (by rw [kalmanSmooth_length, List.length_map])
  unfold kalman_run
  rw [h3]
  rw [kalmanSmooth_const _ a b]
  · rw [List.map_map]
    rfl
  · intro p hp
    obtain ⟨r, hr, rfl⟩ := List.mem_map.mp hp
    exact ⟨(h r hr).1, (h r hr).2⟩

/-- Witness for C8 at a concrete three-row constant trajectory. -/
theorem smoother_constant_input_witness :
    (∀ r ∈ [constRow 0, constRow 1000, constRow 3000],
        r.GPS_Latitude = 1 ∧ r.GPS_Longitude = 2) ∧
    (kalman_run [constRow 0, constRow 1000, constRow 3000]).map
        (fun r => (r.GPS_Latitude, r.GPS_Longitude)) =
      [(1, 2), (1, 2), (1, 2)] := by
  have hconst : ∀ r ∈ [constRow 0, constRow 1000, constRow 3000],
      r.GPS_Latitude = 1 ∧ r.GPS_Longitude = 2 := by
    intro r hr
    simp only [List.mem_cons, List.not_mem_nil, or_false] at hr
    rcases hr with rfl | rfl | rfl <;> exact ⟨rfl, rfl⟩
  refine ⟨hconst, ?_⟩
  rw [smoother_constant_input _ 1 2 hconst]
  rfl

end DroneTask
